import Mathlib

/-!
Verification development for the spotifyhygiene repository.

Shallow embedding of the two service implementations in
`src/spotify_service.py` (class `SpotifyService`) and
`src/spotify_cleaner.py` (class `SpotifyLikedSongsCleaner`).

Modelling conventions:
- Timestamps are integers (an abstract count of seconds).  A liked item's
  `addedAt : Option Int` is the outcome of the Python-stdlib call
  `datetime.fromisoformat(item['added_at'].replace('Z', '+00:00'))`:
  `some t` when the string parses to the instant `t`, `none` when the call
  raises (the parser itself is `datetime`, external to the repository).
- Python `dict` lookups that can raise (`track['album']`, `track['artists'][0]`)
  are modelled with `Option`: a `none` propagates like the uncaught exception
  does in the source, aborting the enclosing run.
- Remote I/O is modelled by oracles: a list of `ApiResponse` consumed one per
  issued request, a `Nat → Bool` oracle giving each removal batch's outcome,
  and a list of page responses for pagination.  Every function also reports
  its observable effects (requests issued, total time slept, DELETE calls).
-/

/-- One image entry of `track['album']['images']`. -/
structure AlbumImage where
  url : String
deriving DecidableEq

/-- The `track['album']` object: display name plus image list. -/
structure Album where
  name : String
  images : List AlbumImage
deriving DecidableEq

/-- One entry of `track['artists']`. -/
structure Artist where
  name : String
deriving DecidableEq

/-- A track object as the remote API returns it.  `album` is `Option` because
`track['album']` is a dict lookup that raises `KeyError` when the key is
absent; `artists` may be any list, `track['artists'][0]` raising when empty. -/
structure Track where
  id : String
  name : String
  artists : List Artist
  album : Option Album
deriving DecidableEq

/-- An element of the liked-songs list: the track plus the parse outcome of
its `added_at` string (see the file header for the `Option Int` convention). -/
structure LikedItem where
  track : Track
  addedAt : Option Int
deriving DecidableEq

/-- `cutoff_date = datetime.now() - timedelta(days=timeframe_months * 30)`
(`spotify_service.py` lines 169 and 240), with instants in seconds. -/
def cutoff_date (now : Int) (timeframe_months : Nat) : Int :=
  now - ((timeframe_months : Int) * 30 * 86400)

/-- Entry of `tracks_to_remove` built by `analyze_and_cleanup`
(`spotify_service.py` lines 183-189). -/
structure RemovedTrack where
  id : String
  name : String
  artist : String
  album : String
  added_at : Int
deriving DecidableEq

/-- Entry of `tracks_to_remove` built by `preview_cleanup`
(`spotify_service.py` lines 254-261), including the `preview_image` field. -/
structure PreviewCandidate where
  id : String
  name : String
  artist : String
  album : String
  added_at : Int
  preview_image : Option String
deriving DecidableEq

/-- Builds the removal record of `analyze_and_cleanup`: accesses
`track['artists'][0]['name']` and `track['album']['name']`; `none` models the
`IndexError`/`KeyError` raised when the artist list is empty or the album is
missing. -/
def mkRemovedTrack (track : Track) (t : Int) : Option RemovedTrack :=
  match track.artists, track.album with
  | a :: _, some alb => some ⟨track.id, track.name, a.name, alb.name, t⟩
  | _, _ => none

/-- Builds the removal record of `preview_cleanup`.  The preview image is
`track['album']['images'][0]['url'] if track['album']['images'] else None`,
i.e. the head of the image list when nonempty; the album itself is a raising
lookup as in `mkRemovedTrack`. -/
def mkPreviewCandidate (track : Track) (t : Int) : Option PreviewCandidate :=
  match track.artists, track.album with
  | a :: _, some alb =>
      some ⟨track.id, track.name, a.name, alb.name, t,
            (alb.images.head?).map AlbumImage.url⟩
  | _, _ => none

/-- Per-item outcome of the analysis loop body of `analyze_and_cleanup` /
`preview_cleanup` (`spotify_service.py` lines 172-189 and 243-261):
`failed` models an uncaught exception (unparsable `added_at`, or a raising
record construction), `remove c` an append of `c` to `tracks_to_remove`,
`keep` the two fall-through paths. -/
inductive ItemOutcome (α : Type) where
  | keep : ItemOutcome α
  | remove : α → ItemOutcome α
  | failed : ItemOutcome α
deriving DecidableEq

/-- Loop body of the analysis loops in `spotify_service.py`: parse `added_at`
first (lines 174-175 / 245-246, raising on failure), then skip the item when
its ID is in the active set (lines 178-179 / 249-250), then mark for removal
when strictly older than the cutoff (lines 182-189 / 253-261), else keep.
Parameterised by the record builder `mk` shared between execute and preview. -/
def classifyItemWith {α : Type} (mk : Track → Int → Option α)
    (active : List String) (cutoff : Int) (it : LikedItem) : ItemOutcome α :=
  match it.addedAt with
  | none => ItemOutcome.failed
  | some t =>
    if it.track.id ∈ active then ItemOutcome.keep
    else if t < cutoff then
      match mk it.track t with
      | none => ItemOutcome.failed
      | some c => ItemOutcome.remove c
    else ItemOutcome.keep

/-- Whether the loop body appends the item to `tracks_to_remove`. -/
def removesWith {α : Type} (mk : Track → Int → Option α)
    (active : List String) (cutoff : Int) (it : LikedItem) : Bool :=
  match classifyItemWith mk active cutoff it with
  | ItemOutcome.remove _ => true
  | _ => false

/-- The whole analysis loop: `tracks_to_remove` accumulated in iteration
order; `none` when any iteration raises (the Python exception propagates out
of `analyze_and_cleanup` / `preview_cleanup`, aborting the run). -/
def buildPlanWith {α : Type} (mk : Track → Int → Option α)
    (active : List String) (cutoff : Int) : List LikedItem → Option (List α)
  | [] => some []
  | it :: rest =>
    match classifyItemWith mk active cutoff it with
    | ItemOutcome.failed => none
    | ItemOutcome.keep => buildPlanWith mk active cutoff rest
    | ItemOutcome.remove c => (buildPlanWith mk active cutoff rest).map (c :: ·)

/-- Loop body of `clean_liked_songs` (`spotify_cleaner.py` lines 232-258):
the active-set test comes first, then the guarded parse; an unparsable
`added_at` lands in the `except` branch which also appends the record, so the
function is total.  Returns `true` when the item is appended to
`songs_to_remove`. -/
def cleanerShouldRemove (active : List String) (cutoff : Int)
    (it : LikedItem) : Bool :=
  if it.track.id ∈ active then false
  else
    match it.addedAt with
    | some t => decide (t < cutoff)
    | none => true

/-- Batch partition of `remove_tracks_from_liked` (`spotify_service.py`
lines 119-120): slices `track_ids[i:i + 50]` for `i = 0, 50, 100, ...`.
Fuelled recursion; `toBatches` supplies fuel `ids.length`, always enough
because each step consumes a nonempty prefix of 50 elements. -/
def toBatchesGo : Nat → List String → List (List String)
  | _, [] => []
  | 0, _ :: _ => []
  | fuel + 1, x :: xs => ((x :: xs).take 50) :: toBatchesGo fuel ((x :: xs).drop 50)

/-- The list of batches `remove_tracks_from_liked` plans over `track_ids`. -/
def toBatches (ids : List String) : List (List String) :=
  toBatchesGo ids.length ids

/-- Observable outcome of one `remove_tracks_from_liked` call:
`returned` is the boolean the Python function returns, `batchesIssued` the
DELETE requests actually sent (in order), `tracksRemoved` the number of ids in
batches whose DELETE succeeded (the tracks genuinely gone from the remote
library — batches already issued are never re-added). -/
structure RemovalTrace where
  returned : Bool
  batchesIssued : List (List String)
  tracksRemoved : Nat
deriving DecidableEq

/-- The batch loop of `remove_tracks_from_liked` (lines 119-130): one DELETE
per batch, indexed by `i`; the oracle gives each request's success.  On the
first failing batch the function returns `False` at once — later batches are
not issued and earlier ones stay removed. -/
def runRemoval (oracle : Nat → Bool) : List (List String) → Nat → RemovalTrace
  | [], _ => ⟨true, [], 0⟩
  | b :: rest, i =>
    if oracle i then
      let r := runRemoval oracle rest (i + 1)
      ⟨r.returned, b :: r.batchesIssued, b.length + r.tracksRemoved⟩
    else ⟨false, [b], 0⟩

/-- `remove_tracks_from_liked(track_ids)` (`spotify_service.py` lines
114-130) under a batch-success oracle. -/
def remove_tracks_from_liked (oracle : Nat → Bool) (ids : List String) :
    RemovalTrace :=
  runRemoval oracle (toBatches ids) 0

/-- Observable outcome of the per-track removal loop of `clean_liked_songs`
(`spotify_cleaner.py` lines 289-299): it calls `remove_track_from_liked`
once per song, each DELETE carrying the singleton list `[track_id]`, counting
successes and failures and always continuing to the next song. -/
structure CleanerRemovalTrace where
  removed_count : Nat
  failed_count : Nat
  calls : List (List String)
deriving DecidableEq

/-- The removal loop of `clean_liked_songs`, one singleton DELETE per id. -/
def cleanerRemoveGo (oracle : Nat → Bool) : List String → Nat → CleanerRemovalTrace
  | [], _ => ⟨0, 0, []⟩
  | x :: rest, i =>
    let r := cleanerRemoveGo oracle rest (i + 1)
    if oracle i then ⟨r.removed_count + 1, r.failed_count, [x] :: r.calls⟩
    else ⟨r.removed_count, r.failed_count + 1, [x] :: r.calls⟩

/-- Entry point of the cleaner's removal phase. -/
def cleanerRemoveRun (oracle : Nat → Bool) (ids : List String) :
    CleanerRemovalTrace :=
  cleanerRemoveGo oracle ids 0

/-- One response of the remote API to one issued request, abstracting body
payloads: `http200` is a 200 whose body parses as JSON (or an empty DELETE
body, returned as success), `netError` a raised `requests` exception. -/
inductive ApiResponse where
  | http200 : ApiResponse
  | http204 : ApiResponse
  | http401 : ApiResponse
  | http429 : Nat → ApiResponse
  | httpOther : Nat → ApiResponse
  | netError : ApiResponse
deriving DecidableEq

/-- Observable outcome of one `SpotifyService.make_request` call:
`result` is `some ()` when the Python function returns a payload, `none` when
it returns `None`; `requests` counts HTTP requests issued, `refresh_calls`
counts token-refresh attempts (always `0`: the class contains no refresh
code, only the `# TODO: Implement token refresh` comment at line 61),
`slept` the total time slept. -/
structure ReqOutcome where
  result : Option Unit
  requests : Nat
  refresh_calls : Nat
  slept : Nat
deriving DecidableEq

/-- The `for attempt in range(3)` loop of `SpotifyService.make_request`
(`spotify_service.py` lines 26-74), consuming one `ApiResponse` per issued
request (an exhausted list behaves like a raised network error).  A 429
sleeps `Retry-After` seconds and continues — consuming one of the three
attempts; a 200 returns the payload; 401 and every other status return
`None`; a network error sleeps 1 second and retries unless this was the third
attempt. -/
def make_request_go : Nat → List ApiResponse → Nat → Nat → ReqOutcome
  | 0, _, reqs, slept => ⟨none, reqs, 0, slept⟩
  | n + 1, [], reqs, slept =>
    if n = 0 then ⟨none, reqs + 1, 0, slept⟩
    else make_request_go n [] (reqs + 1) (slept + 1)
  | n + 1, r :: rest, reqs, slept =>
    match r with
    | ApiResponse.http429 ra => make_request_go n rest (reqs + 1) (slept + ra)
    | ApiResponse.http200 => ⟨some (), reqs + 1, 0, slept⟩
    | ApiResponse.http401 => ⟨none, reqs + 1, 0, slept⟩
    | ApiResponse.http204 => ⟨none, reqs + 1, 0, slept⟩
    | ApiResponse.httpOther _ => ⟨none, reqs + 1, 0, slept⟩
    | ApiResponse.netError =>
      if n = 0 then ⟨none, reqs + 1, 0, slept⟩
      else make_request_go n rest (reqs + 1) (slept + 1)

/-- `SpotifyService.make_request` under a response oracle. -/
def make_request (rs : List ApiResponse) : ReqOutcome :=
  make_request_go 3 rs 0 0

/-- Observable outcome of one `SpotifyLikedSongsCleaner.make_spotify_request`
call: as `ReqOutcome`, plus `token_version`, the number of successful
refreshes applied to the `Authorization` header (each one models
`refresh_access_token` assigning the new bearer token, lines 44-45). -/
structure CleanerReqOutcome where
  result : Option Unit
  requests : Nat
  refresh_calls : Nat
  token_version : Nat
  slept : Nat
deriving DecidableEq

/-- The `for attempt in range(3)` loop of
`SpotifyLikedSongsCleaner.make_spotify_request` (`spotify_cleaner.py` lines
55-115).  Differences from the service variant: a 401 calls
`refresh_access_token` (outcomes drawn in order from `refreshes`; an
exhausted list is a failed refresh) and on success updates the header and
continues — consuming an attempt — while on refresh failure it returns `None`
at once; a 204 is success; a network error sleeps 2 seconds between
attempts. -/
def make_spotify_request_go :
    Nat → List ApiResponse → List Bool → Nat → Nat → Nat → Nat → CleanerReqOutcome
  | 0, _, _, reqs, refr, tok, slept => ⟨none, reqs, refr, tok, slept⟩
  | n + 1, [], _, reqs, refr, tok, slept =>
    if n = 0 then ⟨none, reqs + 1, refr, tok, slept⟩
    else make_spotify_request_go n [] [] (reqs + 1) refr tok (slept + 2)
  | n + 1, r :: rest, refreshes, reqs, refr, tok, slept =>
    match r with
    | ApiResponse.http401 =>
      match refreshes with
      | true :: rfs =>
        make_spotify_request_go n rest rfs (reqs + 1) (refr + 1) (tok + 1) slept
      | _ => ⟨none, reqs + 1, refr + 1, tok, slept⟩
    | ApiResponse.http429 ra =>
      make_spotify_request_go n rest refreshes (reqs + 1) refr tok (slept + ra)
    | ApiResponse.http200 => ⟨some (), reqs + 1, refr, tok, slept⟩
    | ApiResponse.http204 => ⟨some (), reqs + 1, refr, tok, slept⟩
    | ApiResponse.httpOther _ => ⟨none, reqs + 1, refr, tok, slept⟩
    | ApiResponse.netError =>
      if n = 0 then ⟨none, reqs + 1, refr, tok, slept⟩
      else make_spotify_request_go n rest refreshes (reqs + 1) refr tok (slept + 2)

/-- `SpotifyLikedSongsCleaner.make_spotify_request` under a response oracle
and a refresh-outcome oracle. -/
def make_spotify_request (rs : List ApiResponse) (refreshes : List Bool) :
    CleanerReqOutcome :=
  make_spotify_request_go 3 rs refreshes 0 0 0 0

/-- The pagination loop of `SpotifyService.get_liked_songs`
(`spotify_service.py` lines 80-100), driven by one page response per issued
request (`none` = the underlying `make_request` returned `None`; an exhausted
oracle behaves the same).  Accumulates `songs` and the log of issued
`(limit, offset)` request parameters.  A missing response or an empty item
list breaks the loop; a page shorter than `limit` is appended and then breaks;
otherwise the offset advances by `limit` and the loop continues. -/
def get_liked_songs_go :
    List (Option (List LikedItem)) → Nat → List LikedItem → List (Nat × Nat) →
    List LikedItem × List (Nat × Nat)
  | [], off, acc, log => (acc, log ++ [(50, off)])
  | none :: _, off, acc, log => (acc, log ++ [(50, off)])
  | some items :: rest, off, acc, log =>
    if items.isEmpty then (acc, log ++ [(50, off)])
    else if items.length < 50 then (acc ++ items, log ++ [(50, off)])
    else get_liked_songs_go rest (off + 50) (acc ++ items) (log ++ [(50, off)])

/-- `SpotifyService.get_liked_songs()` with the default `limit = 50`:
returns the accumulated song list and the `(limit, offset)` pairs of the
requests it issued. -/
def get_liked_songs (pages : List (Option (List LikedItem))) :
    List LikedItem × List (Nat × Nat) :=
  get_liked_songs_go pages 0 [] []

/-- Reference re-expression of the accumulation of `get_liked_songs` used to
characterise it without the accumulator: the concatenation, in order, of the
consumed pages, cut off at the first missing response, empty page or short
page. -/
def collectPages : List (Option (List LikedItem)) → List LikedItem
  | [] => []
  | none :: _ => []
  | some items :: rest =>
    if items.isEmpty then []
    else if items.length < 50 then items
    else items ++ collectPages rest

/-- Number of page requests `get_liked_songs` issues for a given oracle. -/
def pagesRequested : List (Option (List LikedItem)) → Nat
  | [] => 1
  | none :: _ => 1
  | some items :: rest =>
    if items.isEmpty then 1
    else if items.length < 50 then 1
    else 1 + pagesRequested rest

/-- The result dict of `analyze_and_cleanup` (`spotify_service.py` lines
142-148 and 200-208).  `recent_tracks_found` and `top_tracks_found` are
`Option` because the empty-library early return (lines 142-148) builds a dict
without those keys. -/
structure AnalyzeResult where
  total_liked_songs : Nat
  songs_analyzed : Nat
  songs_removed : Nat
  songs_kept : Nat
  recent_tracks_found : Option Nat
  top_tracks_found : Option Nat
  removed_tracks : List RemovedTrack
deriving DecidableEq

/-- `SpotifyService.analyze_and_cleanup` (`spotify_service.py` lines
132-208) from the point where the liked list and the three activity feeds
have been fetched (`liked`, `recentIds`, `shortTopIds`, `medTopIds` are the
extracted inputs; the id-set union of lines 156-164 is the dedup of their
concatenation).  Returns the result dict (`none` when the analysis loop
raises) together with the DELETE batch calls issued by the removal phase. -/
def analyze_and_cleanup (oracle : Nat → Bool) (liked : List LikedItem)
    (recentIds shortTopIds medTopIds : List String)
    (now : Int) (timeframe_months : Nat) :
    Option AnalyzeResult × List (List String) :=
  if liked.isEmpty then (some ⟨0, 0, 0, 0, none, none, []⟩, [])
  else
    let active := (recentIds ++ (shortTopIds ++ medTopIds)).dedup
    match buildPlanWith mkRemovedTrack active (cutoff_date now timeframe_months) liked with
    | none => (none, [])
    | some plan =>
      let ids := plan.map RemovedTrack.id
      let trace := if ids.isEmpty then none
                   else some (remove_tracks_from_liked oracle ids)
      let removed_count := match trace with
                           | some tr => if tr.returned then plan.length else 0
                           | none => 0
      (some ⟨liked.length, liked.length, removed_count, liked.length - removed_count,
             some recentIds.length, some (shortTopIds.length + medTopIds.length),
             plan.take removed_count⟩,
       match trace with
       | some tr => tr.batchesIssued
       | none => [])

/-- The result dict of `preview_cleanup` (`spotify_service.py` lines 219-223
and 263-268); `recent_activity_count` is absent from the empty-library early
return, hence `Option`. -/
structure PreviewResult where
  total_liked_songs : Nat
  tracks_to_remove : List PreviewCandidate
  tracks_to_keep : Nat
  recent_activity_count : Option Nat
deriving DecidableEq

/-- `SpotifyService.preview_cleanup` (`spotify_service.py` lines 210-268)
from the same post-fetch point as `analyze_and_cleanup`.  The second
component is the list of DELETE calls issued: the function body contains no
call to `remove_tracks_from_liked` (or any other mutating request), so it is
`[]` on every path. -/
def preview_cleanup (liked : List LikedItem)
    (recentIds shortTopIds medTopIds : List String)
    (now : Int) (timeframe_months : Nat) :
    Option PreviewResult × List (List String) :=
  if liked.isEmpty then (some ⟨0, [], 0, none⟩, [])
  else
    let active := (recentIds ++ (shortTopIds ++ medTopIds)).dedup
    match buildPlanWith mkPreviewCandidate active (cutoff_date now timeframe_months) liked with
    | none => (none, [])
    | some plan =>
      (some ⟨liked.length, plan, liked.length - plan.length, some active.length⟩, [])

/-- Concrete fixtures used by witnesses and counterexamples. -/
def oTrue : Nat → Bool := fun _ => true

/-- Batch oracle under which every DELETE fails. -/
def oFalse : Nat → Bool := fun _ => false

/-- Batch oracle under which only the first DELETE succeeds. -/
def oFirstOnly : Nat → Bool := fun i => decide (i = 0)

/-- A removal-ID list of 51 ids, spanning two batches. -/
def ids51 : List String := List.replicate 51 "t"

/-- An album with one image. -/
def albA : Album := ⟨"Album A", [⟨"img-a"⟩]⟩

/-- An album with an empty image list. -/
def albNoImg : Album := ⟨"Album B", []⟩

/-- A track with album and one artist. -/
def trackOld : Track := ⟨"old1", "Old Song", [⟨"Artist A"⟩], some albA⟩

/-- A recently added track. -/
def trackNew : Track := ⟨"new1", "New Song", [⟨"Artist A"⟩], some albA⟩

/-- A track whose id is placed in the active set by the fixtures. -/
def trackActive : Track := ⟨"act1", "Active Song", [⟨"Artist A"⟩], some albA⟩

/-- A track whose `album` key is missing. -/
def trackNoAlbum : Track := ⟨"noalb", "No Album", [⟨"Artist A"⟩], none⟩

/-- A track whose album has no images. -/
def trackNoImg : Track := ⟨"noimg", "No Image", [⟨"Artist A"⟩], some albNoImg⟩

/-- Inactive, added long before the cutoff. -/
def itemOld : LikedItem := ⟨trackOld, some (-1000)⟩

/-- Inactive, added after the cutoff. -/
def itemNew : LikedItem := ⟨trackNew, some 500⟩

/-- Active, added long before the cutoff. -/
def itemActiveOld : LikedItem := ⟨trackActive, some (-1000)⟩

/-- Inactive entry whose `added_at` string does not parse. -/
def itemMalformed : LikedItem := ⟨⟨"bad1", "Bad", [⟨"Artist A"⟩], some albA⟩, none⟩

/-- Inactive, old, and missing its album. -/
def itemNoAlbumOld : LikedItem := ⟨trackNoAlbum, some (-1000)⟩

/-- A full page of 50 liked items. -/
def full50 : List LikedItem := List.replicate 50 itemNew

theorem filterLengthPartition {γ : Type} (p : γ → Bool) (l : List γ) :
    (l.filter p).length + (l.filter fun x => !(p x)).length = l.length := by
  induction l with
  | nil => simp
  | cons x xs ih =>
    by_cases h : p x <;> simp [List.filter, h] <;> omega

theorem buildPlan_length_eq {α : Type} (mk : Track → Int → Option α)
    (active : List String) (cutoff : Int) (l : List LikedItem) (plan : List α)
    (h : buildPlanWith mk active cutoff l = some plan) :
    plan.length = (l.filter (removesWith mk active cutoff)).length := by
  induction l generalizing plan with
  | nil => simp [buildPlanWith] at h; simp [← h]
  | cons it rest ih =>
    unfold buildPlanWith at h
    cases hc : classifyItemWith mk active cutoff it with
    | failed => simp [hc] at h
    | keep =>
      simp only [hc] at h
      have hrw : removesWith mk active cutoff it = false := by
        unfold removesWith; rw [hc]
      simpa [List.filter, hrw] using ih plan h
    | remove c =>
      simp only [hc] at h
      cases hr : buildPlanWith mk active cutoff rest with
      | none => simp [hr] at h
      | some p =>
        simp [hr] at h
        have hrw : removesWith mk active cutoff it = true := by
          unfold removesWith; rw [hc]
        simp [List.filter, hrw, ← h, ih p hr]

theorem buildPlan_length_le {α : Type} (mk : Track → Int → Option α)
    (active : List String) (cutoff : Int) (l : List LikedItem) (plan : List α)
    (h : buildPlanWith mk active cutoff l = some plan) :
    plan.length ≤ l.length := by
  rw [buildPlan_length_eq mk active cutoff l plan h]
  exact List.length_filter_le _ _

theorem buildPlan_none_of_failed {α : Type} (mk : Track → Int → Option α)
    (active : List String) (cutoff : Int) (l : List LikedItem) (it : LikedItem)
    (hmem : it ∈ l) (hf : classifyItemWith mk active cutoff it = ItemOutcome.failed) :
    buildPlanWith mk active cutoff l = none := by
  induction l with
  | nil => cases hmem
  | cons x xs ih =>
    rcases List.mem_cons.mp hmem with h | h
    · subst h
      unfold buildPlanWith
      simp [hf]
    · unfold buildPlanWith
      cases hc : classifyItemWith mk active cutoff x <;> simp [hc, ih h]

theorem buildPlan_ids_agree (active : List String) (cutoff : Int)
    (l : List LikedItem) :
    (buildPlanWith mkPreviewCandidate active cutoff l).map (List.map PreviewCandidate.id)
      = (buildPlanWith mkRemovedTrack active cutoff l).map (List.map RemovedTrack.id) := by
  induction l with
  | nil => simp [buildPlanWith]
  | cons it rest ih =>
    unfold buildPlanWith
    cases ht : it.addedAt with
    | none => simp [classifyItemWith, ht]
    | some t =>
      by_cases hm : it.track.id ∈ active
      · simpa [classifyItemWith, ht, hm] using ih
      · by_cases hlt : t < cutoff
        · cases ha : it.track.artists with
          | nil => simp [classifyItemWith, ht, hm, hlt, mkPreviewCandidate, mkRemovedTrack, ha]
          | cons a as =>
            cases hb : it.track.album with
            | none => simp [classifyItemWith, ht, hm, hlt, mkPreviewCandidate, mkRemovedTrack, ha, hb]
            | some alb =>
              simp only [classifyItemWith, ht, hm, hlt, mkPreviewCandidate, mkRemovedTrack,
                ha, hb, if_true, if_false, if_pos, if_neg, not_false_iff]
              cases hp : buildPlanWith mkPreviewCandidate active cutoff rest with
              | none =>
                cases hr : buildPlanWith mkRemovedTrack active cutoff rest with
                | none => simp
                | some q => rw [hp, hr] at ih; simp at ih
              | some p =>
                cases hr : buildPlanWith mkRemovedTrack active cutoff rest with
                | none => rw [hp, hr] at ih; simp at ih
                | some q =>
                  rw [hp, hr] at ih
                  simp at ih
                  simp [ih]
        · simpa [classifyItemWith, ht, hm, hlt] using ih

theorem toBatchesGo_flatten (fuel : Nat) (l : List String) (h : l.length ≤ fuel) :
    (toBatchesGo fuel l).flatten = l := by
  induction fuel generalizing l with
  | zero =>
    have hl : l = [] := List.length_eq_zero.mp (Nat.le_zero.mp h)
    simp [hl, toBatchesGo]
  | succ n ih =>
    cases l with
    | nil => simp [toBatchesGo]
    | cons x xs =>
      have hlen : ((x :: xs).drop 50).length ≤ n := by
        rw [List.length_drop]
        simp only [List.length_cons] at h ⊢
        omega
      simp only [toBatchesGo, List.flatten_cons]
      rw [ih _ hlen, List.take_append_drop]

theorem toBatchesGo_length (fuel : Nat) (l : List String) (h : l.length ≤ fuel) :
    (toBatchesGo fuel l).length = (l.length + 49) / 50 := by
  induction fuel generalizing l with
  | zero =>
    have hl : l = [] := List.length_eq_zero.mp (Nat.le_zero.mp h)
    simp [hl, toBatchesGo]
  | succ n ih =>
    cases l with
    | nil => simp [toBatchesGo]
    | cons x xs =>
      have hlen : ((x :: xs).drop 50).length ≤ n := by
        rw [List.length_drop]
        simp only [List.length_cons] at h ⊢
        omega
      simp only [toBatchesGo, List.length_cons]
      rw [ih _ hlen, List.length_drop]
      simp only [List.length_cons]
      omega

theorem toBatchesGo_mem (fuel : Nat) (l : List String) (h : l.length ≤ fuel)
    (b : List String) (hb : b ∈ toBatchesGo fuel l) : b.length ≤ 50 ∧ b ≠ [] := by
  induction fuel generalizing l with
  | zero =>
    have hl : l = [] := List.length_eq_zero.mp (Nat.le_zero.mp h)
    subst hl
    simp [toBatchesGo] at hb
  | succ n ih =>
    cases l with
    | nil => simp [toBatchesGo] at hb
    | cons x xs =>
      have hlen : ((x :: xs).drop 50).length ≤ n := by
        rw [List.length_drop]
        simp only [List.length_cons] at h ⊢
        omega
      simp only [toBatchesGo, List.mem_cons] at hb
      rcases hb with hb | hb
      · subst hb
        constructor
        · simp
        · simp [List.take]
      · exact ih _ hlen hb

theorem toBatches_flatten (ids : List String) : (toBatches ids).flatten = ids :=
  toBatchesGo_flatten ids.length ids (Nat.le_refl _)

theorem toBatches_length (ids : List String) :
    (toBatches ids).length = (ids.length + 49) / 50 :=
  toBatchesGo_length ids.length ids (Nat.le_refl _)

theorem toBatches_mem (ids : List String) (b : List String) (hb : b ∈ toBatches ids) :
    b.length ≤ 50 ∧ b ≠ [] :=
  toBatchesGo_mem ids.length ids (Nat.le_refl _) b hb

theorem runRemoval_isPrefix (oracle : Nat → Bool) (bs : List (List String)) (i : Nat) :
    ∃ t, (runRemoval oracle bs i).batchesIssued ++ t = bs := by
  induction bs generalizing i with
  | nil => exact ⟨[], rfl⟩
  | cons b rest ih =>
    by_cases h : oracle i
    · rcases ih (i + 1) with ⟨t, ht⟩
      exact ⟨t, by simp [runRemoval, h, ht]⟩
    · exact ⟨rest, by simp [runRemoval, h]⟩

theorem runRemoval_true (oracle : Nat → Bool) (bs : List (List String)) (i : Nat)
    (h : (runRemoval oracle bs i).returned = true) :
    (runRemoval oracle bs i).batchesIssued = bs ∧
      (runRemoval oracle bs i).tracksRemoved = bs.flatten.length := by
  induction bs generalizing i with
  | nil => simp [runRemoval]
  | cons b rest ih =>
    by_cases ho : oracle i
    · simp only [runRemoval, ho, if_true] at h ⊢
      rcases ih (i + 1) h with ⟨h1, h2⟩
      simp [h1, h2]
    · simp [runRemoval, ho] at h

theorem runRemoval_false (oracle : Nat → Bool) (bs : List (List String)) (i : Nat)
    (h : (runRemoval oracle bs i).returned = false) :
    (runRemoval oracle bs i).batchesIssued ≠ [] ∧
      (runRemoval oracle bs i).tracksRemoved =
        ((runRemoval oracle bs i).batchesIssued.dropLast).flatten.length := by
  induction bs generalizing i with
  | nil => simp [runRemoval] at h
  | cons b rest ih =>
    by_cases ho : oracle i
    · simp only [runRemoval, ho, if_true] at h ⊢
      rcases ih (i + 1) h with ⟨h1, h2⟩
      rcases hx : (runRemoval oracle rest (i + 1)).batchesIssued with _ | ⟨y, ys⟩
      · exact absurd hx h1
      · rw [hx] at h2
        refine ⟨by simp, ?_⟩
        simp only [List.dropLast_cons₂, List.flatten_cons, List.length_append]
        omega
    · simp [runRemoval, ho]

theorem runRemoval_all_true (oracle : Nat → Bool) (bs : List (List String)) (i : Nat)
    (hok : ∀ j, oracle j = true) : (runRemoval oracle bs i).returned = true := by
  induction bs generalizing i with
  | nil => simp [runRemoval]
  | cons b rest ih => simp [runRemoval, hok i, ih (i + 1)]

theorem cleanerRemoveGo_calls (oracle : Nat → Bool) (ids : List String) (i : Nat) :
    (cleanerRemoveGo oracle ids i).calls.length = ids.length ∧
      ∀ c ∈ (cleanerRemoveGo oracle ids i).calls, c.length = 1 := by
  induction ids generalizing i with
  | nil => simp [cleanerRemoveGo]
  | cons x rest ih =>
    rcases ih (i + 1) with ⟨h1, h2⟩
    by_cases ho : oracle i <;>
      simp only [cleanerRemoveGo, ho, if_true, if_false, Bool.false_eq_true] <;>
      constructor <;>
      simp [h1, h2] <;>
      intro c hc <;>
      exact h2 c hc

theorem make_request_go_requests_le (n : Nat) (rs : List ApiResponse)
    (reqs slept : Nat) : (make_request_go n rs reqs slept).requests ≤ reqs + n := by
  induction n generalizing rs reqs slept with
  | zero => simp [make_request_go]
  | succ m ih =>
    cases rs with
    | nil =>
      show (if m = 0 then (⟨none, reqs + 1, 0, slept⟩ : ReqOutcome)
            else make_request_go m [] (reqs + 1) (slept + 1)).requests ≤ reqs + (m + 1)
      split
      · show reqs + 1 ≤ reqs + (m + 1)
        omega
      · have h2 := ih [] (reqs + 1) (slept + 1)
        omega
    | cons r rest =>
      cases r with
      | http429 ra =>
        show (make_request_go m rest (reqs + 1) (slept + ra)).requests ≤ reqs + (m + 1)
        have h2 := ih rest (reqs + 1) (slept + ra)
        omega
      | http200 =>
        show reqs + 1 ≤ reqs + (m + 1)
        omega
      | http401 =>
        show reqs + 1 ≤ reqs + (m + 1)
        omega
      | http204 =>
        show reqs + 1 ≤ reqs + (m + 1)
        omega
      | httpOther c =>
        show reqs + 1 ≤ reqs + (m + 1)
        omega
      | netError =>
        show (if m = 0 then (⟨none, reqs + 1, 0, slept⟩ : ReqOutcome)
              else make_request_go m rest (reqs + 1) (slept + 1)).requests ≤ reqs + (m + 1)
        split
        · show reqs + 1 ≤ reqs + (m + 1)
          omega
        · have h2 := ih rest (reqs + 1) (slept + 1)
          omega

theorem make_spotify_request_go_requests_le (n : Nat) (rs : List ApiResponse)
    (refreshes : List Bool) (reqs refr tok slept : Nat) :
    (make_spotify_request_go n rs refreshes reqs refr tok slept).requests ≤ reqs + n := by
  induction n generalizing rs refreshes reqs refr tok slept with
  | zero => simp [make_spotify_request_go]
  | succ m ih =>
    cases rs with
    | nil =>
      show (if m = 0 then (⟨none, reqs + 1, refr, tok, slept⟩ : CleanerReqOutcome)
            else make_spotify_request_go m [] [] (reqs + 1) refr tok (slept + 2)).requests
          ≤ reqs + (m + 1)
      split
      · show reqs + 1 ≤ reqs + (m + 1)
        omega
      · have h2 := ih [] [] (reqs + 1) refr tok (slept + 2)
        omega
    | cons r rest =>
      cases r with
      | http401 =>
        cases refreshes with
        | nil =>
          show reqs + 1 ≤ reqs + (m + 1)
          omega
        | cons b rbs =>
          cases b with
          | true =>
            show (make_spotify_request_go m rest rbs (reqs + 1) (refr + 1) (tok + 1)
                    slept).requests ≤ reqs + (m + 1)
            have h2 := ih rest rbs (reqs + 1) (refr + 1) (tok + 1) slept
            omega
          | false =>
            show reqs + 1 ≤ reqs + (m + 1)
            omega
      | http429 ra =>
        show (make_spotify_request_go m rest refreshes (reqs + 1) refr tok
                (slept + ra)).requests ≤ reqs + (m + 1)
        have h2 := ih rest refreshes (reqs + 1) refr tok (slept + ra)
        omega
      | http200 =>
        show reqs + 1 ≤ reqs + (m + 1)
        omega
      | http204 =>
        show reqs + 1 ≤ reqs + (m + 1)
        omega
      | httpOther c =>
        show reqs + 1 ≤ reqs + (m + 1)
        omega
      | netError =>
        show (if m = 0 then (⟨none, reqs + 1, refr, tok, slept⟩ : CleanerReqOutcome)
              else make_spotify_request_go m rest refreshes (reqs + 1) refr tok
                     (slept + 2)).requests ≤ reqs + (m + 1)
        split
        · show reqs + 1 ≤ reqs + (m + 1)
          omega
        · have h2 := ih rest refreshes (reqs + 1) refr tok (slept + 2)
          omega

theorem list_range_one : List.range 1 = [0] := rfl

theorem get_liked_songs_go_spec (pages : List (Option (List LikedItem)))
    (off : Nat) (acc : List LikedItem) (log : List (Nat × Nat)) :
    get_liked_songs_go pages off acc log =
      (acc ++ collectPages pages,
       log ++ (List.range (pagesRequested pages)).map (fun i => (50, off + 50 * i))) := by
  induction pages generalizing off acc log with
  | nil => simp [get_liked_songs_go, collectPages, pagesRequested, list_range_one]
  | cons pg rest ih =>
    cases pg with
    | none => simp [get_liked_songs_go, collectPages, pagesRequested, list_range_one]
    | some items =>
      by_cases hemp : items.isEmpty
      · simp [get_liked_songs_go, collectPages, pagesRequested, hemp, list_range_one]
      · by_cases hshort : items.length < 50
        · simp [get_liked_songs_go, collectPages, pagesRequested, hemp, hshort,
            list_range_one]
        · have hstep : get_liked_songs_go (some items :: rest) off acc log
              = get_liked_songs_go rest (off + 50) (acc ++ items) (log ++ [(50, off)]) := by
            simp [get_liked_songs_go, hemp, hshort]
          have hcol : collectPages (some items :: rest) = items ++ collectPages rest := by
            simp [collectPages, hemp, hshort]
          have hreq : pagesRequested (some items :: rest) = 1 + pagesRequested rest := by
            simp [pagesRequested, hemp, hshort]
          rw [hstep, ih (off + 50) (acc ++ items) (log ++ [(50, off)]), hcol, hreq]
          rw [Nat.add_comm 1 (pagesRequested rest), List.range_succ_eq_map]
          simp only [List.map_cons, List.map_map, List.append_assoc, List.cons_append,
            List.nil_append, Nat.mul_zero, Nat.add_zero, Function.comp_def,
            Nat.succ_eq_add_one]
          have hfn : (fun i => ((50 : Nat), off + 50 * (i + 1)))
              = (fun i => ((50 : Nat), off + 50 + 50 * i)) := by
            funext i
            simp only [Prod.mk.injEq, true_and]
            omega
          rw [hfn]

/-- C1: for every liked-track entry whose added-at parses, classification
follows the reference rule in both implementations: an ID in the active set
yields keep regardless of age; otherwise a timestamp strictly earlier than
the cutoff yields remove and a timestamp at or after the cutoff yields keep.
(For the web-service variant the remove case additionally assumes the track
record is well formed — nonempty artist list and present album — since that
variant builds the removal record in the same statement; the missing-album
behaviour is settled separately under C10.) -/
theorem spotify_c1_classification (active : List String) (cutoff t : Int)
    (it : LikedItem) (h : it.addedAt = some t) :
    (it.track.id ∈ active → cleanerShouldRemove active cutoff it = false) ∧
    (it.track.id ∉ active → t < cutoff → cleanerShouldRemove active cutoff it = true) ∧
    (it.track.id ∉ active → cutoff ≤ t → cleanerShouldRemove active cutoff it = false) ∧
    (it.track.id ∈ active →
      classifyItemWith mkRemovedTrack active cutoff it = ItemOutcome.keep) ∧
    (it.track.id ∉ active → cutoff ≤ t →
      classifyItemWith mkRemovedTrack active cutoff it = ItemOutcome.keep) ∧
    (it.track.id ∉ active → t < cutoff → it.track.artists ≠ [] →
      it.track.album ≠ none →
      ∃ c, classifyItemWith mkRemovedTrack active cutoff it = ItemOutcome.remove c) := by
  refine ⟨?_, ?_, ?_, ?_, ?_, ?_⟩
  · intro hm
    simp [cleanerShouldRemove, hm]
  · intro hm hlt
    simp [cleanerShouldRemove, hm, h, hlt]
  · intro hm hge
    simp [cleanerShouldRemove, hm, h, show ¬ t < cutoff from not_lt.mpr hge]
  · intro hm
    simp [classifyItemWith, h, hm]
  · intro hm hge
    simp [classifyItemWith, h, hm, show ¬ t < cutoff from not_lt.mpr hge]
  · intro hm hlt ha hb
    rcases hart : it.track.artists with _ | ⟨a, as⟩
    · exact absurd hart ha
    · rcases halb : it.track.album with _ | alb
      · exact absurd halb hb
      · refine ⟨⟨it.track.id, it.track.name, a.name, alb.name, t⟩, ?_⟩
        simp [classifyItemWith, h, hm, hlt, mkRemovedTrack, hart, halb]

/-- Witness for C1 at the spec scenario: track A active and old (keep),
track B inactive and old (remove), track C inactive and recent (keep), in
both the cleaner and the web-service classifier. -/
theorem spotify_c1_classification_witness :
    cleanerShouldRemove ["act1"] 0 itemActiveOld = false ∧
    classifyItemWith mkRemovedTrack ["act1"] 0 itemActiveOld = ItemOutcome.keep ∧
    cleanerShouldRemove ["act1"] 0 itemOld = true ∧
    (∃ c, classifyItemWith mkRemovedTrack ["act1"] 0 itemOld = ItemOutcome.remove c) ∧
    cleanerShouldRemove ["act1"] 0 itemNew = false ∧
    classifyItemWith mkRemovedTrack ["act1"] 0 itemNew = ItemOutcome.keep :=
  ⟨(spotify_c1_classification ["act1"] 0 (-1000) itemActiveOld rfl).1 (by decide),
   (spotify_c1_classification ["act1"] 0 (-1000) itemActiveOld rfl).2.2.2.1 (by decide),
   (spotify_c1_classification ["act1"] 0 (-1000) itemOld rfl).2.1 (by decide) (by decide),
   (spotify_c1_classification ["act1"] 0 (-1000) itemOld rfl).2.2.2.2.2
     (by decide) (by decide) (by decide) (by decide),
   (spotify_c1_classification ["act1"] 0 500 itemNew rfl).2.2.1 (by decide) (by decide),
   (spotify_c1_classification ["act1"] 0 500 itemNew rfl).2.2.2.2.1 (by decide) (by decide)⟩

/-- C3 counterexample: three consecutive 429 responses exhaust the shared
3-attempt loop of `make_request`; the pending successful response is never
requested (only 3 requests are issued and the call surfaces failure), so a
429 does not always cause a retry — the number of 429 retries is bounded. -/
theorem spotify_c3_counterexample :
    (make_request [ApiResponse.http429 1, ApiResponse.http429 1, ApiResponse.http429 1,
        ApiResponse.http200]).result = none ∧
    (make_request [ApiResponse.http429 1, ApiResponse.http429 1, ApiResponse.http429 1,
        ApiResponse.http200]).requests = 3 := by decide

/-- C3 amended: a 429 sleeps for the Retry-After duration and retries, but
inside the same 3-attempt loop that also covers network errors: a single 429
with Retry-After 2 followed by success yields exactly one retry after 2 time
units of suspension, while at most 3 requests are ever issued per call (in
both implementations) and three consecutive 429s surface failure after
exactly 3 requests and the sum of the Retry-After durations of sleep. -/
theorem spotify_c3_retry_behavior :
    make_request [ApiResponse.http429 2, ApiResponse.http200] = ⟨some (), 2, 0, 2⟩ ∧
    (∀ rs, (make_request rs).requests ≤ 3) ∧
    (∀ rs refreshes, (make_spotify_request rs refreshes).requests ≤ 3) ∧
    (∀ a b c rest,
      (make_request (ApiResponse.http429 a :: ApiResponse.http429 b ::
          ApiResponse.http429 c :: rest)).result = none ∧
      (make_request (ApiResponse.http429 a :: ApiResponse.http429 b ::
          ApiResponse.http429 c :: rest)).requests = 3 ∧
      (make_request (ApiResponse.http429 a :: ApiResponse.http429 b ::
          ApiResponse.http429 c :: rest)).slept = a + b + c) := by
  refine ⟨by decide, ?_, ?_, ?_⟩
  · intro rs
    simpa [make_request] using make_request_go_requests_le 3 rs 0 0
  · intro rs refreshes
    simpa [make_spotify_request] using
      make_spotify_request_go_requests_le 3 rs refreshes 0 0 0 0
  · intro a b c rest
    refine ⟨rfl, rfl, ?_⟩
    show 0 + a + b + c = a + b + c
    omega

/-- C4: on HTTP 401 the web-service client performs no token refresh at all —
it returns `None` after a single request even though a successful response is
pending (`spotify_service.py` line 61 is only a `# TODO: Implement token
refresh` comment) — while the cleaner client implements the claimed protocol:
refresh, header update (token version 1), and one retry of the original
request on refresh success; immediate authentication failure with no further
request on refresh failure. -/
theorem spotify_c4_service_refresh_missing :
    make_request [ApiResponse.http401, ApiResponse.http200] = ⟨none, 1, 0, 0⟩ ∧
    make_spotify_request [ApiResponse.http401, ApiResponse.http200] [true]
      = ⟨some (), 2, 1, 1, 0⟩ ∧
    make_spotify_request [ApiResponse.http401, ApiResponse.http200] [false]
      = ⟨none, 1, 1, 0, 0⟩ := by decide

/-- C5 counterexample: an entry with unparsable added-at makes the
web-service analysis loop raise — `classifyItemWith` yields `failed` and the
whole `analyze_and_cleanup` run aborts (`none`), even when the entry's ID is
active — contradicting the claim that malformed data never surfaces as an
error and never blocks the run. -/
theorem spotify_c5_counterexample :
    classifyItemWith mkRemovedTrack [] 0 itemMalformed = ItemOutcome.failed ∧
    (analyze_and_cleanup oTrue [itemMalformed] [] [] [] 0 0).1 = none ∧
    classifyItemWith mkRemovedTrack ["bad1"] 0 itemMalformed = ItemOutcome.failed := by
  decide

/-- C5 amended: in the cleaner variant an inactive entry with unparsable
added-at is marked for removal and the run continues (the classifier is
total); in the web-service variant an unparsable added-at raises during
analysis — regardless of the record builder — and any run whose liked list
contains such an entry aborts with an error instead of classifying it. -/
theorem spotify_c5_malformed_timestamp {α : Type} (mk : Track → Int → Option α)
    (active : List String) (cutoff : Int) (it : LikedItem) (liked : List LikedItem)
    (h : it.addedAt = none) :
    (it.track.id ∉ active → cleanerShouldRemove active cutoff it = true) ∧
    classifyItemWith mk active cutoff it = ItemOutcome.failed ∧
    (it ∈ liked → buildPlanWith mk active cutoff liked = none) := by
  refine ⟨?_, ?_, ?_⟩
  · intro hm
    simp [cleanerShouldRemove, hm, h]
  · simp [classifyItemWith, h]
  · intro hmem
    exact buildPlan_none_of_failed mk active cutoff liked it hmem
      (by simp [classifyItemWith, h])

/-- Witness for the amended C5 at a concrete malformed entry. -/
theorem spotify_c5_malformed_timestamp_witness :
    cleanerShouldRemove [] 0 itemMalformed = true ∧
    classifyItemWith mkRemovedTrack [] 0 itemMalformed = ItemOutcome.failed ∧
    buildPlanWith mkRemovedTrack [] 0 [itemMalformed] = none :=
  ⟨(spotify_c5_malformed_timestamp mkRemovedTrack [] 0 itemMalformed [itemMalformed]
      rfl).1 (by decide),
   (spotify_c5_malformed_timestamp mkRemovedTrack [] 0 itemMalformed [itemMalformed]
      rfl).2.1,
   (spotify_c5_malformed_timestamp mkRemovedTrack [] 0 itemMalformed [itemMalformed]
      rfl).2.2 (by decide)⟩

/-- C2 counterexample: on 51 ids where batch 1 succeeds and batch 2 fails,
50 tracks are actually removed before the stop, yet the outcome returned by
`remove_tracks_from_liked` is the same bare `False` produced when every batch
fails and 0 tracks are removed — the outcome does not report how many tracks
were removed and does not distinguish partial application from total
failure. -/
theorem spotify_c2_counterexample :
    (remove_tracks_from_liked oFirstOnly ids51).returned = false ∧
    (remove_tracks_from_liked oFirstOnly ids51).tracksRemoved = 50 ∧
    (remove_tracks_from_liked oFalse ids51).returned = false ∧
    (remove_tracks_from_liked oFalse ids51).tracksRemoved = 0 := by decide

/-- C2 amended: batch removal stops at the first failed batch (the issued
batches are always an initial segment of the planned batches; on success all
of them, on failure a nonempty initial segment ending at the failing batch)
and already-issued batches are not rolled back (on failure the tracks still
removed are exactly those of the successful batches before the last, failing,
issued one) — but the returned outcome is a single boolean that carries no
removed-before-the-stop count. -/
theorem spotify_c2_failfast (oracle : Nat → Bool) (ids : List String) :
    (∃ t2, (remove_tracks_from_liked oracle ids).batchesIssued ++ t2 = toBatches ids) ∧
    ((remove_tracks_from_liked oracle ids).returned = true →
      (remove_tracks_from_liked oracle ids).batchesIssued = toBatches ids ∧
      (remove_tracks_from_liked oracle ids).tracksRemoved = ids.length) ∧
    ((remove_tracks_from_liked oracle ids).returned = false →
      (remove_tracks_from_liked oracle ids).batchesIssued ≠ [] ∧
      (remove_tracks_from_liked oracle ids).tracksRemoved =
        ((remove_tracks_from_liked oracle ids).batchesIssued.dropLast).flatten.length) := by
  refine ⟨?_, ?_, ?_⟩
  · exact runRemoval_isPrefix oracle (toBatches ids) 0
  · intro h
    have h2 := runRemoval_true oracle (toBatches ids) 0 h
    refine ⟨h2.1, ?_⟩
    show (runRemoval oracle (toBatches ids) 0).tracksRemoved = ids.length
    rw [h2.2]
    exact congrArg List.length (toBatches_flatten ids)
  · intro h
    exact runRemoval_false oracle (toBatches ids) 0 h

/-- Witness for the amended C2 at the partial-failure input of the
counterexample. -/
theorem spotify_c2_failfast_witness :
    (∃ t2, (remove_tracks_from_liked oFirstOnly ids51).batchesIssued ++ t2
        = toBatches ids51) ∧
    (remove_tracks_from_liked oFirstOnly ids51).batchesIssued ≠ [] ∧
    (remove_tracks_from_liked oFirstOnly ids51).tracksRemoved =
      ((remove_tracks_from_liked oFirstOnly ids51).batchesIssued.dropLast).flatten.length :=
  ⟨(spotify_c2_failfast oFirstOnly ids51).1,
   (spotify_c2_failfast oFirstOnly ids51).2.2 (by decide)⟩

/-- C6 counterexample: the cleaner's removal loop on the same 51-id list
issues 51 singleton DELETE calls, not ⌈51/50⌉ = 2 batch calls — the claimed
⌈N/50⌉ call count is false for the cleaner removal path cited by the claim. -/
theorem spotify_c6_counterexample :
    50 < ids51.length ∧
    (cleanerRemoveRun oTrue ids51).calls.length = 51 ∧
    (∀ c ∈ (cleanerRemoveRun oTrue ids51).calls, c.length = 1) ∧
    (ids51.length + 49) / 50 = 2 := by decide

/-- C6 amended: the web-service batch remover partitions the ID list into
batches of at most 50 in order (their concatenation is the original list) and,
when every batch succeeds, issues exactly ⌈N/50⌉ = (N + 49) / 50 batch calls
(at least two for N > 50); the cleaner variant instead issues one singleton
DELETE per id, i.e. N calls. -/
theorem spotify_c6_batching (oracle : Nat → Bool) (ids : List String)
    (h : 50 < ids.length) (hok : ∀ i, oracle i = true) :
    (toBatches ids).flatten = ids ∧
    (∀ b ∈ toBatches ids, b.length ≤ 50) ∧
    (remove_tracks_from_liked oracle ids).batchesIssued.length
      = (ids.length + 49) / 50 ∧
    1 < (ids.length + 49) / 50 ∧
    (∀ o2, (cleanerRemoveRun o2 ids).calls.length = ids.length) := by
  refine ⟨toBatches_flatten ids, ?_, ?_, ?_, ?_⟩
  · intro b hb
    exact (toBatches_mem ids b hb).1
  · have hret := runRemoval_all_true oracle (toBatches ids) 0 hok
    have h2 := runRemoval_true oracle (toBatches ids) 0 hret
    show (runRemoval oracle (toBatches ids) 0).batchesIssued.length = _
    rw [h2.1, toBatches_length]
  · omega
  · intro o2
    exact (cleanerRemoveGo_calls o2 ids 0).1

/-- Witness for the amended C6 at 51 ids with an all-success oracle. -/
theorem spotify_c6_batching_witness :
    (toBatches ids51).flatten = ids51 ∧
    (remove_tracks_from_liked oTrue ids51).batchesIssued.length
      = (ids51.length + 49) / 50 :=
  ⟨(spotify_c6_batching oTrue ids51 (by decide) (fun _ => rfl)).1,
   (spotify_c6_batching oTrue ids51 (by decide) (fun _ => rfl)).2.2.1⟩

/-- C7 counterexample: when the second page request fails, `get_liked_songs`
returns exactly the same value as when the library genuinely ends after the
first full page - the accumulated 50 items with no error indication.  A
failed page request inside the full-library fetch is absorbed as a silently
truncated library, not surfaced as fatal to the run. -/
theorem spotify_c7_counterexample :
    (get_liked_songs [some full50, none]).1 = (get_liked_songs [some full50, some []]).1 ∧
    (get_liked_songs [some full50, none]).1 = full50 := by decide

/-- C7 amended: pagination proceeds with fixed page size 50 and offsets
0, 50, 100, ... (the request log is exactly that progression), accumulating
pages in order until the first failed page request, empty item list, or page
of fewer than 50 items - and a failed page request merely ends the loop,
returning the items accumulated so far with no error surfaced. -/
theorem spotify_c7_pagination (pages : List (Option (List LikedItem))) :
    get_liked_songs pages =
      (collectPages pages,
       (List.range (pagesRequested pages)).map (fun i => (50, 50 * i))) := by
  have h := get_liked_songs_go_spec pages 0 [] []
  simpa using h

/-- C9: the preview operation issues no removal (mutating) requests on any
path — its DELETE-call trace is empty, so the remote liked library is
unchanged by a preview; every removal candidate it builds carries a preview
image reference drawn from the head of its album's image list; and the
preview plan selects exactly the same track ids as the execute plan (same
classifier, different record shape). -/
theorem spotify_c9_preview_pure :
    (∀ (liked : List LikedItem) (r s m : List String) (now : Int) (months : Nat),
      (preview_cleanup liked r s m now months).2 = []) ∧
    (∀ (track : Track) (t : Int) (c : PreviewCandidate),
      mkPreviewCandidate track t = some c →
        ∃ alb, track.album = some alb ∧
          c.preview_image = (alb.images.head?).map AlbumImage.url) ∧
    (∀ (active : List String) (cutoff : Int) (liked : List LikedItem),
      (buildPlanWith mkPreviewCandidate active cutoff liked).map
          (List.map PreviewCandidate.id)
        = (buildPlanWith mkRemovedTrack active cutoff liked).map
            (List.map RemovedTrack.id)) := by
  refine ⟨?_, ?_, fun active cutoff liked => buildPlan_ids_agree active cutoff liked⟩
  · intro liked r s m now months
    cases liked with
    | nil => rfl
    | cons x xs =>
      cases hplan : buildPlanWith mkPreviewCandidate ((r ++ (s ++ m)).dedup)
          (cutoff_date now months) (x :: xs) with
      | none => simp [preview_cleanup, hplan]
      | some plan => simp [preview_cleanup, hplan]
  · intro track t c h
    rcases ha : track.artists with _ | ⟨a, as⟩ <;>
      rcases hb : track.album with _ | alb <;>
        simp [mkPreviewCandidate, ha, hb] at h
    refine ⟨alb, rfl, ?_⟩
    rw [← h]

/-- Witness for C9 at a concrete preview run and at a candidate whose album
has no images (preview image defaults to none). -/
theorem spotify_c9_preview_pure_witness :
    (preview_cleanup [itemOld] [] [] [] 0 0).2 = [] ∧
    (∃ alb, trackNoImg.album = some alb ∧
      (⟨"noimg", "No Image", "Artist A", "Album B", -1000, none⟩ :
          PreviewCandidate).preview_image
        = (alb.images.head?).map AlbumImage.url) :=
  ⟨spotify_c9_preview_pure.1 [itemOld] [] [] [] 0 0,
   spotify_c9_preview_pure.2.1 trackNoImg (-1000)
     ⟨"noimg", "No Image", "Artist A", "Album B", -1000, none⟩ (by decide)⟩

/-- C10 counterexample: a removal candidate whose track has no album makes
the record construction fail — and the whole analyze or preview run abort —
instead of defaulting the optional album; the claim that construction
succeeds when the album is missing is false. -/
theorem spotify_c10_counterexample :
    mkRemovedTrack trackNoAlbum (-1000) = none ∧
    mkPreviewCandidate trackNoAlbum (-1000) = none ∧
    (analyze_and_cleanup oTrue [itemNoAlbumOld] [] [] [] 0 0).1 = none ∧
    (preview_cleanup [itemNoAlbumOld] [] [] [] 0 0).1 = none := by decide

/-- C10 amended: candidate construction succeeds whenever the track has an
album and at least one artist — an empty album-image list is defaulted to a
`none` preview image, not an error — but a missing album (or an empty artist
list) is not defaulted: the lookup fails and the run aborts. -/
theorem spotify_c10_candidate_defaults (track : Track) (t : Int) :
    (∀ alb a rest2, track.album = some alb → track.artists = a :: rest2 →
      mkRemovedTrack track t = some ⟨track.id, track.name, a.name, alb.name, t⟩ ∧
      mkPreviewCandidate track t = some ⟨track.id, track.name, a.name, alb.name, t,
        (alb.images.head?).map AlbumImage.url⟩) ∧
    (∀ alb a rest2, track.album = some alb → track.artists = a :: rest2 →
      alb.images = [] →
      ∃ c, mkPreviewCandidate track t = some c ∧ c.preview_image = none) ∧
    (track.album = none →
      mkRemovedTrack track t = none ∧ mkPreviewCandidate track t = none) ∧
    (track.artists = [] →
      mkRemovedTrack track t = none ∧ mkPreviewCandidate track t = none) := by
  refine ⟨?_, ?_, ?_, ?_⟩
  · intro alb a rest2 hb ha
    constructor <;> simp [mkRemovedTrack, mkPreviewCandidate, ha, hb]
  · intro alb a rest2 hb ha himg
    exact ⟨⟨track.id, track.name, a.name, alb.name, t, none⟩,
      by simp [mkPreviewCandidate, ha, hb, himg], rfl⟩
  · intro hb
    rcases ha : track.artists with _ | ⟨a, as⟩ <;>
      constructor <;> simp [mkRemovedTrack, mkPreviewCandidate, ha, hb]
  · intro ha
    constructor <;> simp [mkRemovedTrack, mkPreviewCandidate, ha]

/-- Witness for the amended C10: an album with an empty image list defaults
the preview image to none, and a missing album fails the construction. -/
theorem spotify_c10_candidate_defaults_witness :
    (∃ c, mkPreviewCandidate trackNoImg (-1000) = some c ∧ c.preview_image = none) ∧
    (mkRemovedTrack trackNoAlbum (-1000) = none ∧
      mkPreviewCandidate trackNoAlbum (-1000) = none) :=
  ⟨(spotify_c10_candidate_defaults trackNoImg (-1000)).2.1 albNoImg ⟨"Artist A"⟩ []
      rfl rfl rfl,
   (spotify_c10_candidate_defaults trackNoAlbum (-1000)).2.2.1 rfl⟩

/-- C8: after any completed run, `songs_removed + songs_kept = songs_analyzed`
and `songs_analyzed = total_liked_songs`; every analyzed track is counted in
exactly one of kept or removed (the classifier partitions the liked list, the
remove-side and keep-side filters summing exactly to the analyzed count, and
the reported removed count is either that remove-side count or 0 when removal
failed); and for preview, `tracks_to_keep` plus the removal-plan length equals
the total liked count. -/
theorem spotify_c8_count_invariant :
    (∀ (oracle : Nat → Bool) (liked : List LikedItem)
        (r s m : List String) (now : Int) (months : Nat) (res : AnalyzeResult),
      (analyze_and_cleanup oracle liked r s m now months).1 = some res →
        res.songs_removed + res.songs_kept = res.songs_analyzed ∧
        res.songs_analyzed = res.total_liked_songs ∧
        (liked.filter (removesWith mkRemovedTrack ((r ++ (s ++ m)).dedup)
            (cutoff_date now months))).length
          + (liked.filter (fun it => !(removesWith mkRemovedTrack ((r ++ (s ++ m)).dedup)
              (cutoff_date now months) it))).length = res.songs_analyzed ∧
        (res.songs_removed = 0 ∨
          res.songs_removed = (liked.filter (removesWith mkRemovedTrack
            ((r ++ (s ++ m)).dedup) (cutoff_date now months))).length)) ∧
    (∀ (liked : List LikedItem) (r s m : List String) (now : Int) (months : Nat)
        (pres : PreviewResult),
      (preview_cleanup liked r s m now months).1 = some pres →
        pres.tracks_to_remove.length + pres.tracks_to_keep = pres.total_liked_songs) := by
  constructor
  · intro oracle liked r s m now months res h
    have hfl := filterLengthPartition
      (removesWith mkRemovedTrack ((r ++ (s ++ m)).dedup) (cutoff_date now months)) liked
    cases liked with
    | nil =>
      have h0 : (analyze_and_cleanup oracle [] r s m now months).1
          = some ⟨0, 0, 0, 0, none, none, []⟩ := rfl
      rw [h0] at h
      have hr := Option.some.inj h
      subst hr
      exact ⟨rfl, rfl, by simp, Or.inl rfl⟩
    | cons x xs =>
      cases hplan : buildPlanWith mkRemovedTrack ((r ++ (s ++ m)).dedup)
          (cutoff_date now months) (x :: xs) with
      | none =>
        rw [show (analyze_and_cleanup oracle (x :: xs) r s m now months).1 = none from by
          simp [analyze_and_cleanup, hplan]] at h
        cases h
      | some plan =>
        have hlen := buildPlan_length_le mkRemovedTrack ((r ++ (s ++ m)).dedup)
          (cutoff_date now months) (x :: xs) plan hplan
        have hfeq := buildPlan_length_eq mkRemovedTrack ((r ++ (s ++ m)).dedup)
          (cutoff_date now months) (x :: xs) plan hplan
        by_cases hpe : (plan.map RemovedTrack.id).isEmpty
        · have h0 : (analyze_and_cleanup oracle (x :: xs) r s m now months).1
              = some ⟨(x :: xs).length, (x :: xs).length, 0, (x :: xs).length - 0,
                      some r.length, some (s.length + m.length), plan.take 0⟩ := by
            simp [analyze_and_cleanup, hplan, hpe]
          rw [h0] at h
          have hr := Option.some.inj h
          subst hr
          refine ⟨?_, rfl, hfl, Or.inl rfl⟩
          show 0 + ((x :: xs).length - 0) = (x :: xs).length
          omega
        · by_cases hret : (remove_tracks_from_liked oracle
              (plan.map RemovedTrack.id)).returned
          · have h0 : (analyze_and_cleanup oracle (x :: xs) r s m now months).1
                = some ⟨(x :: xs).length, (x :: xs).length, plan.length,
                        (x :: xs).length - plan.length, some r.length,
                        some (s.length + m.length), plan.take plan.length⟩ := by
              simp [analyze_and_cleanup, hplan, hpe, hret]
            rw [h0] at h
            have hr := Option.some.inj h
            subst hr
            refine ⟨?_, rfl, hfl, Or.inr hfeq⟩
            show plan.length + ((x :: xs).length - plan.length) = (x :: xs).length
            omega
          · have h0 : (analyze_and_cleanup oracle (x :: xs) r s m now months).1
                = some ⟨(x :: xs).length, (x :: xs).length, 0, (x :: xs).length - 0,
                        some r.length, some (s.length + m.length), plan.take 0⟩ := by
              simp [analyze_and_cleanup, hplan, hpe, hret]
            rw [h0] at h
            have hr := Option.some.inj h
            subst hr
            refine ⟨?_, rfl, hfl, Or.inl rfl⟩
            show 0 + ((x :: xs).length - 0) = (x :: xs).length
            omega
  · intro liked r s m now months pres h
    cases liked with
    | nil =>
      have h0 : (preview_cleanup [] r s m now months).1 = some ⟨0, [], 0, none⟩ := rfl
      rw [h0] at h
      have hr := Option.some.inj h
      subst hr
      rfl
    | cons x xs =>
      cases hplan : buildPlanWith mkPreviewCandidate ((r ++ (s ++ m)).dedup)
          (cutoff_date now months) (x :: xs) with
      | none =>
        rw [show (preview_cleanup (x :: xs) r s m now months).1 = none from by
          simp [preview_cleanup, hplan]] at h
        cases h
      | some plan =>
        have hlen := buildPlan_length_le mkPreviewCandidate ((r ++ (s ++ m)).dedup)
          (cutoff_date now months) (x :: xs) plan hplan
        have h0 : (preview_cleanup (x :: xs) r s m now months).1
            = some ⟨(x :: xs).length, plan, (x :: xs).length - plan.length,
                    some ((r ++ (s ++ m)).dedup).length⟩ := by
          simp [preview_cleanup, hplan]
        rw [h0] at h
        have hr := Option.some.inj h
        subst hr
        show plan.length + ((x :: xs).length - plan.length) = (x :: xs).length
        omega

/-- Witness for C8 at a concrete completed run: one inactive old track,
removal succeeding. -/
theorem spotify_c8_count_invariant_witness :
    (⟨1, 1, 1, 0, some 0, some 0,
        [⟨"old1", "Old Song", "Artist A", "Album A", -1000⟩]⟩ :
          AnalyzeResult).songs_removed
        + (⟨1, 1, 1, 0, some 0, some 0,
            [⟨"old1", "Old Song", "Artist A", "Album A", -1000⟩]⟩ :
              AnalyzeResult).songs_kept
      = (⟨1, 1, 1, 0, some 0, some 0,
          [⟨"old1", "Old Song", "Artist A", "Album A", -1000⟩]⟩ :
            AnalyzeResult).songs_analyzed ∧
    (⟨1, [⟨"old1", "Old Song", "Artist A", "Album A", -1000, some "img-a"⟩], 0,
        some 0⟩ : PreviewResult).tracks_to_remove.length
        + (⟨1, [⟨"old1", "Old Song", "Artist A", "Album A", -1000, some "img-a"⟩], 0,
            some 0⟩ : PreviewResult).tracks_to_keep
      = (⟨1, [⟨"old1", "Old Song", "Artist A", "Album A", -1000, some "img-a"⟩], 0,
          some 0⟩ : PreviewResult).total_liked_songs :=
  ⟨(spotify_c8_count_invariant.1 oTrue [itemOld] [] [] [] 0 0
      ⟨1, 1, 1, 0, some 0, some 0,
        [⟨"old1", "Old Song", "Artist A", "Album A", -1000⟩]⟩ (by decide)).1,
   spotify_c8_count_invariant.2 [itemOld] [] [] [] 0 0
     ⟨1, [⟨"old1", "Old Song", "Artist A", "Album A", -1000, some "img-a"⟩], 0,
       some 0⟩ (by decide)⟩
